import Mathlib

/-!
Verification of the session-orchestration core of a terminal front-end for
managing two mutually-exclusive WireGuard tunnel sessions.  The external
`wg` / `wg-quick` subprocesses are modelled by a `World` record giving the
outcome of each possible invocation; operations return their Go result
together with the ordered trace of subprocess commands issued.
-/

namespace TuiWg

/-! ## String primitives

The Go code uses `strings.HasPrefix`, `strings.HasSuffix`, `strings.Contains`,
`strings.TrimSpace`, `strings.TrimPrefix`, `strings.TrimSuffix`,
`strings.Fields` and `strings.Split`.  They are re-implemented here over
`List Char` by structural recursion so that every definition reduces in the
kernel. -/

/-- `isPrefixList p l` is true when `p` is a prefix of `l`. -/
def isPrefixList : List Char → List Char → Bool
  | [], _ => true
  | _ :: _, [] => false
  | a :: as, b :: bs => a == b && isPrefixList as bs

/-- `strings.HasPrefix s p`. -/
def strStartsWith (s p : String) : Bool :=
  isPrefixList p.toList s.toList

/-- `strings.HasSuffix s suf`. -/
def strEndsWith (s suf : String) : Bool :=
  isPrefixList suf.toList.reverse s.toList.reverse

/-- `infixAux sub l` is true when `sub` occurs contiguously inside `l`. -/
def infixAux (sub : List Char) : List Char → Bool
  | [] => sub.isEmpty
  | c :: cs => isPrefixList sub (c :: cs) || infixAux sub cs

/-- `strings.Contains s sub`. -/
def strContainsSub (s sub : String) : Bool :=
  infixAux sub.toList s.toList

/-- `strings.TrimSpace s` (leading and trailing whitespace removed). -/
def strTrimSpace (s : String) : String :=
  (((s.toList.dropWhile Char.isWhitespace).reverse.dropWhile
      Char.isWhitespace).reverse).asString

/-- `strings.TrimPrefix s p`: drop `p` from the front when present,
otherwise return `s` unchanged. -/
def strTrimStart (s p : String) : String :=
  if isPrefixList p.toList s.toList then (s.toList.drop p.toList.length).asString
  else s

/-- `strings.TrimSuffix s suf`. -/
def strTrimEnd (s suf : String) : String :=
  if strEndsWith s suf then
    (s.toList.take (s.toList.length - suf.toList.length)).asString
  else s

/-- Helper for `fieldsStr`: split a character list on whitespace runs,
dropping empty fields, with `acc` the (reversed) current field. -/
def fieldsAux : List Char → List Char → List (List Char)
  | [], acc => if acc.isEmpty then [] else [acc.reverse]
  | c :: cs, acc =>
    if c.isWhitespace then
      if acc.isEmpty then fieldsAux cs [] else acc.reverse :: fieldsAux cs []
    else fieldsAux cs (c :: acc)

/-- `strings.Fields s`: whitespace-separated fields. -/
def fieldsStr (s : String) : List String :=
  (fieldsAux s.toList []).map List.asString

/-- Helper for `splitOnCommaStr`: split on `,` keeping empty parts, as
`strings.Split(s, ",")` does. -/
def splitCommaAux : List Char → List Char → List (List Char)
  | [], acc => [acc.reverse]
  | c :: cs, acc =>
    if c == ',' then acc.reverse :: splitCommaAux cs []
    else splitCommaAux cs (c :: acc)

/-- `strings.Split(s, ",")`. -/
def splitOnCommaStr (s : String) : List String :=
  (splitCommaAux s.toList []).map List.asString

/-- Decimal digits to a natural number. -/
def digitsToNat (l : List Char) : Nat :=
  l.foldl (fun a c => a * 10 + (c.toNat - 48)) 0

/-- `strconv.Atoi`: optional sign, then decimal digits only, with the
64-bit signed range check Go performs. -/
def atoi? (s : String) : Option Int :=
  let l := s.toList
  let p : Int × List Char :=
    match l with
    | '+' :: r => (1, r)
    | '-' :: r => (-1, r)
    | r => (1, r)
  if p.2.isEmpty then none
  else if p.2.all Char.isDigit then
    let v : Int := p.1 * (digitsToNat p.2 : Nat)
    if v ≤ 9223372036854775807 ∧ -9223372036854775808 ≤ v then some v else none
  else none

/-! ## Data model (`internal/vpn/types.go`)

Go's `Environment` is a string type with constants `"prod"` and
`"nonprod"`; `ConnectionStatus` is a struct whose zero value has every
field at its empty default.  Timestamps are modelled as `Int` seconds. -/

/-- `Production Environment = "prod"`. -/
def Production : String := "prod"

/-- `NonProduction Environment = "nonprod"`. -/
def NonProduction : String := "nonprod"

/-- `ConnectionStatus` from `types.go`; defaults are Go zero values. -/
structure ConnectionStatus where
  Connected : Bool := false
  Environment : String := ""
  Interface : String := ""
  Endpoint : String := ""
  LastSeen : Option Int := none
  BytesRx : Nat := 0
  BytesTx : Nat := 0
deriving DecidableEq, Repr

/-- One subprocess invocation, in the order the Go code issues them. -/
inductive WgCmd where
  | showAll
  | showIface (iface : String)
  | down (iface : String)
  | up (iface : String)
deriving DecidableEq, Repr

/-- Outcomes of every possible subprocess invocation, plus the current
time.  `none` output models a failing `cmd.Output()`; `downOk`/`upOk`
model the exit status of `wg-quick down`/`up`; `downOut`/`upOut` their
combined output.  The world is static: repeated identical invocations
within one operation observe the same outcome. -/
structure World where
  now : Int
  showAllOut : Option (List String)
  showIfaceOut : String → Option (List String)
  downOk : String → Bool
  downOut : String → String
  upOk : String → Bool
  upOut : String → String

/-! ## Parsing helpers (`service.go`) -/

deriving instance DecidableEq for Except

/-- `parseHandshakeTime` (`service.go:234`): if the string contains
`"second"` and its first field is an integer `n`, return `now - n`;
otherwise if it contains `"minute"` and its first field is an integer
`m`, return `now - 60 m`; otherwise error. -/
def parseHandshakeTime (now : Int) (s : String) : Except String Int :=
  let secTry : Option Int :=
    if strContainsSub s "second" then
      match fieldsStr s with
      | p :: _ => (atoi? p).map (fun n => now - n)
      | [] => none
    else none
  match secTry with
  | some t => .ok t
  | none =>
    let minTry : Option Int :=
      if strContainsSub s "minute" then
        match fieldsStr s with
        | p :: _ => (atoi? p).map (fun m => now - m * 60)
        | [] => none
      else none
    match minTry with
    | some t => .ok t
    | none => .error ("unable to parse handshake time: " ++ s)

/-- `strconv.ParseFloat`, restricted to the plain decimal forms the
transfer parser ever meets: optional sign, digits, optional single `.`
and digits, nothing else (in particular no spaces, exponents or hex).
The value is kept exactly as `(mantissa, scale)` with value
`mantissa / 10^scale`; the decimal literals reaching this function are
exactly representable in `float64` arithmetic up to the final truncation,
so exact arithmetic is faithful here. -/
def parseDecimal? (s : String) : Option (Int × Nat) :=
  let l := s.toList
  let p : Int × List Char :=
    match l with
    | '+' :: r => (1, r)
    | '-' :: r => (-1, r)
    | r => (1, r)
  let ip := p.2.takeWhile Char.isDigit
  let rest := p.2.dropWhile Char.isDigit
  match rest with
  | [] => if ip.isEmpty then none else some (p.1 * (digitsToNat ip : Nat), 0)
  | '.' :: frac =>
    if frac.all Char.isDigit && !(ip.isEmpty && frac.isEmpty) then
      some (p.1 * ((digitsToNat ip * 10 ^ frac.length + digitsToNat frac : Nat) : Int),
        frac.length)
    else none
  | _ => none

/-- `parseBytes` (`service.go:254`): trim space, pick the binary
multiplier from the unit suffix (checked in the order `KiB`, `MiB`,
`GiB`, `B`), trim that suffix, parse the rest as a float and truncate
`value * multiplier` to an unsigned integer.  Note the code trims only
the suffix itself, so `"1.50 MiB"` leaves `"1.50 "` whose trailing space
makes the float parse fail, exactly as `strconv.ParseFloat` does. -/
def parseBytes (s : String) : Except String Nat :=
  let t := strTrimSpace s
  let p : Nat × String :=
    if strEndsWith t "KiB" then (1024, strTrimEnd t "KiB")
    else if strEndsWith t "MiB" then (1024 * 1024, strTrimEnd t "MiB")
    else if strEndsWith t "GiB" then (1024 * 1024 * 1024, strTrimEnd t "GiB")
    else if strEndsWith t "B" then (1, strTrimEnd t "B")
    else (1, t)
  match parseDecimal? p.2 with
  | none => .error ("invalid syntax: " ++ p.2)
  | some md => .ok ((md.1 * (p.1 : Int) / ((10 : Int) ^ md.2)).toNat)

/-! ## Status probing (`service.go:20` and `service.go:61`) -/

/-- Environment inference from the interface name
(`service.go:74`-`78`): `nonprod` is tested before `prod`; neither
marker leaves the Go zero value `""`. -/
def envFromName (name : String) : String :=
  if strContainsSub name "nonprod" then NonProduction
  else if strContainsSub name "prod" then Production
  else ""

/-- The `endpoint:` branch of the scanner loop (`service.go:84`-`86`). -/
def stepEndpoint (line : String) (st : ConnectionStatus) : ConnectionStatus :=
  if strStartsWith line "endpoint:" then
    { st with Endpoint := strTrimSpace (strTrimStart line "endpoint:") }
  else st

/-- The `latest handshake:` branch of the scanner loop
(`service.go:88`-`95`): the value is parsed only when nonempty and not
`"0"`, and a parse error leaves the field untouched. -/
def stepHandshake (now : Int) (line : String) (st : ConnectionStatus) :
    ConnectionStatus :=
  if strStartsWith line "latest handshake:" then
    let h := strTrimSpace (strTrimStart line "latest handshake:")
    if h ≠ "" && h ≠ "0" then
      match parseHandshakeTime now h with
      | .ok t => { st with LastSeen := some t }
      | .error _ => st
    else st
  else st

/-- The `transfer:` branch of the scanner loop (`service.go:97`-`108`):
split on commas; with at least two parts, each counter is set only when
its value parses. -/
def stepTransfer (line : String) (st : ConnectionStatus) : ConnectionStatus :=
  if strStartsWith line "transfer:" then
    match splitOnCommaStr (strTrimSpace (strTrimStart line "transfer:")) with
    | p0 :: p1 :: _ =>
      let st3 :=
        match parseBytes (strTrimSpace p0) with
        | .ok rx => { st with BytesRx := rx }
        | .error _ => st
      match parseBytes (strTrimSpace p1) with
      | .ok tx => { st3 with BytesTx := tx }
      | .error _ => st3
    | _ => st
  else st

/-- One iteration of the line scanner in `getInterfaceStatus`
(`service.go:81`-`109`): trim the line, then run the three sequential
prefix tests, each updating the status the previous one produced. -/
def processLine (now : Int) (st : ConnectionStatus) (raw : String) : ConnectionStatus :=
  let line := strTrimSpace raw
  stepTransfer line (stepHandshake now line (stepEndpoint line st))

/-- `getInterfaceStatus` (`service.go:61`): query `wg show <name>`; on
failure return the zero status with a nil error, otherwise fold the
line parser over the output starting from a connected status. -/
def getInterfaceStatus (w : World) (name : String) :
    (ConnectionStatus × Option String) × List WgCmd :=
  match w.showIfaceOut name with
  | none => (({ Connected := false }, none), [WgCmd.showIface name])
  | some lines =>
    ((lines.foldl (processLine w.now)
        { Connected := true, Interface := name, Environment := envFromName name },
      none), [WgCmd.showIface name])

/-- The interface-collection scan of `GetStatus` (`service.go:29`-`39`):
trim each line, keep the name after `interface:` when it carries the
managed prefix `julo-`. -/
def collectJulo (lines : List String) : List String :=
  lines.filterMap (fun raw =>
    let line := strTrimSpace raw
    if strStartsWith line "interface:" then
      let name := strTrimSpace (strTrimStart line "interface:")
      if strStartsWith name "julo-" then some name else none
    else none)

/-- `GetStatus` (`service.go:20`): run `wg show`; on failure return
disconnected with nil error; collect managed interfaces; none →
disconnected; otherwise bring down every interface after the first
(ignoring each outcome) and query detailed status for the first. -/
def getStatus (w : World) : (ConnectionStatus × Option String) × List WgCmd :=
  match w.showAllOut with
  | none => (({ Connected := false }, none), [WgCmd.showAll])
  | some lines =>
    match collectJulo lines with
    | [] => (({ Connected := false }, none), [WgCmd.showAll])
    | a :: rest =>
      let r := getInterfaceStatus w a
      (r.1, WgCmd.showAll :: (rest.map WgCmd.down ++ r.2))

/-! ## Lifecycle (`service.go:114` and `service.go:135`) -/

/-- `Stop` (`service.go:135`): probe; propagate a probe error (dead in
practice); succeed trivially when disconnected; otherwise bring down the
probed interface, with the fallback sequence for an empty name. -/
def stop (w : World) : Option String × List WgCmd :=
  let r := getStatus w
  match r.1.2 with
  | some e => (some e, r.2)
  | none =>
    if !r.1.1.Connected then (none, r.2)
    else if r.1.1.Interface = "" then
      if w.downOk "julo-prod" then (none, r.2 ++ [WgCmd.down "julo-prod"])
      else if w.downOk "julo-nonprod" then
        (none, r.2 ++ [WgCmd.down "julo-prod", WgCmd.down "julo-nonprod"])
      else
        (some "no active VPN interfaces found to stop",
          r.2 ++ [WgCmd.down "julo-prod", WgCmd.down "julo-nonprod"])
    else
      if w.downOk r.1.1.Interface then (none, r.2 ++ [WgCmd.down r.1.1.Interface])
      else
        (some ("wg-quick down " ++ r.1.1.Interface ++ " failed: " ++
            w.downOut r.1.1.Interface),
          r.2 ++ [WgCmd.down r.1.1.Interface])

/-- `Start` (`service.go:114`): probe; if connected, stop first and on
stop failure return the wrapped error without bringing anything up;
then `wg-quick up julo-<env>`. -/
def start (w : World) (env : String) : Option String × List WgCmd :=
  let r := getStatus w
  let pre : Option String × List WgCmd :=
    match r.1.2 with
    | none =>
      if r.1.1.Connected then
        match stop w with
        | (some e, trS) =>
          (some ("failed to stop current VPN (" ++ r.1.1.Interface ++ "): " ++ e),
            r.2 ++ trS)
        | (none, trS) => (none, r.2 ++ trS)
      else (none, r.2)
    | some _ => (none, r.2)
  match pre with
  | (some e, tr) => (some e, tr)
  | (none, tr) =>
    let cfg := "julo-" ++ env
    if w.upOk cfg then (none, tr ++ [WgCmd.up cfg])
    else (some ("wg-quick up " ++ cfg ++ " failed: " ++ w.upOut cfg),
      tr ++ [WgCmd.up cfg])

/-! ## Configuration processing (the `config` package) -/

/-- `ConfigDir` constant. -/
def ConfigDir : String := "/etc/wireguard"

/-- Template and output file names. -/
def ProdTemplate : String := "julo-prod-template.conf"

/-- Non-production template file name. -/
def NonProdTemplate : String := "julo-nonprod-template.conf"

/-- Production output config file name. -/
def ProdConfig : String := "julo-prod.conf"

/-- Non-production output config file name. -/
def NonProdConfig : String := "julo-nonprod.conf"

/-- Fixed production endpoint constant. -/
def ProdEndpoint : String := "34.101.166.184:51820"

/-- Fixed non-production endpoint constant. -/
def NonProdEndpoint : String := "34.128.85.147:51820"

/-- `filepath.Join(dir, file)` for the absolute paths used here. -/
def joinPath (d f : String) : String := d ++ "/" ++ f

/-- `extractEndpoint`: scan lines; on a line containing `"Endpoint"`
with at least three whitespace fields return the third; lines containing
the token with fewer fields are skipped, as in the Go loop. -/
def extractEndpoint : List String → Except String String
  | [] => .error "no Endpoint found in config file"
  | l :: rest =>
    if strContainsSub l "Endpoint" then
      match fieldsStr l with
      | _ :: _ :: c :: _ => .ok c
      | _ => extractEndpoint rest
    else extractEndpoint rest

/-- `extractConfigLine`: first line starting with `key`, in full. -/
def extractConfigLine : List String → String → Except String String
  | [], key => .error ("key " ++ key ++ " not found in config file")
  | l :: rest, key =>
    if strStartsWith l key then .ok l else extractConfigLine rest key

/-- The awk-replication in `updateConfig`: substitute the template's
`DNS` and `AllowedIPs` lines, pass everything else through. -/
def mergeLine (dns ips line : String) : String :=
  if strStartsWith line "AllowedIPs" then ips
  else if strStartsWith line "DNS" then dns
  else line

/-- `updateConfig`: extract the template's `DNS` and `AllowedIPs` lines
and map the substitution over the user config lines (each written with a
trailing newline, i.e. the output's line list is exactly this map). -/
def updateConfig (templateLines userLines : List String) :
    Except String (List String) :=
  match extractConfigLine templateLines "DNS" with
  | .error m => .error ("failed to extract DNS from template: " ++ m)
  | .ok dns =>
    match extractConfigLine templateLines "AllowedIPs" with
    | .error m => .error ("failed to extract AllowedIPs from template: " ++ m)
    | .ok ips => .ok (userLines.map (mergeLine dns ips))

/-- Tail of `ProcessUserConfig` once an environment is chosen: check the
template file exists, then merge; returns the output path and the merged
lines. -/
def resolveEnv (fs : String → Option (List String)) (userLines : List String)
    (templatePath outputPath : String) : Except String (String × List String) :=
  match fs templatePath with
  | none => .error ("template file not found: " ++ templatePath)
  | some tmplLines =>
    match updateConfig tmplLines userLines with
    | .error m => .error ("failed to update config: " ++ m)
    | .ok merged => .ok (outputPath, merged)

/-- `ProcessUserConfig`: stat the user file, extract its endpoint,
classify it against the two fixed endpoint constants, and merge against
the corresponding template.  The filesystem is modelled as a map from
path to file lines (`none` = missing). -/
def processUserConfig (fs : String → Option (List String)) (userConfigPath : String) :
    Except String (String × List String) :=
  match fs userConfigPath with
  | none => .error ("user config file not found: " ++ userConfigPath)
  | some userLines =>
    match extractEndpoint userLines with
    | .error m => .error ("failed to extract endpoint from config: " ++ m)
    | .ok endpoint =>
      if endpoint = ProdEndpoint then
        resolveEnv fs userLines (joinPath ConfigDir ProdTemplate)
          (joinPath ConfigDir ProdConfig)
      else if endpoint = NonProdEndpoint then
        resolveEnv fs userLines (joinPath ConfigDir NonProdTemplate)
          (joinPath ConfigDir NonProdConfig)
      else
        .error ("the config you specify (" ++ userConfigPath ++
          ") is not a JULO VPN config. Please check with Infra Team")

end TuiWg

example : TuiWg.strStartsWith "interface: julo-a" "interface:" = true := by decide
example : TuiWg.strTrimSpace "  julo-a " = "julo-a" := by decide
example : TuiWg.fieldsStr "Endpoint =  1.2.3.4:51820" =
    ["Endpoint", "=", "1.2.3.4:51820"] := by decide
example : TuiWg.atoi? "45" = some 45 := by decide
example : TuiWg.splitOnCommaStr "1.50 MiB, 200 KiB" = ["1.50 MiB", " 200 KiB"] := by decide
example : TuiWg.strContainsSub "7 secondss" "second" = true := by decide
example : ([1,2,3] ++ [4,5])[3]? = some 4 := by
  simp [List.getElem?_append_right]


namespace TuiWg

/-! ## Concrete worlds and examples used by witnesses and counterexamples -/

/-- A world where the all-interfaces status query itself fails. -/
def wNoShow : World :=
  { now := 0, showAllOut := none, showIfaceOut := fun _ => none,
    downOk := fun _ => true, downOut := fun _ => "",
    upOk := fun _ => true, upOut := fun _ => "" }

/-- A world where only detailed per-interface queries succeed. -/
def wIfaceOnly : World :=
  { now := 0, showAllOut := none, showIfaceOut := fun _ => some [],
    downOk := fun _ => true, downOut := fun _ => "",
    upOk := fun _ => true, upOut := fun _ => "" }

/-- Modelled from the spec: a phrasing of the exact form
`"<N> second(s)"` or `"<N> minute(s)"` — two whitespace fields, the
first a decimal integer, the second the unit word with optional plural
`s`. -/
def specRelativePhrase (s : String) : Bool :=
  match fieldsStr s with
  | [n, u] => (atoi? n).isSome &&
      (u == "second" || u == "seconds" || u == "minute" || u == "minutes")
  | _ => false

/-- Example template lines for the C3 witness. -/
def tmplEx : List String := ["DNS = 1.1.1.1", "AllowedIPs = 10.0.0.0/8"]

/-- Example user config lines for the C3 witness. -/
def userEx : List String :=
  ["PrivateKey = k", "DNS = 8.8.8.8", "AllowedIPs = 0.0.0.0/0"]

/-- Example merged output for the C3 witness. -/
def mergedEx : List String :=
  ["PrivateKey = k", "DNS = 1.1.1.1", "AllowedIPs = 10.0.0.0/8"]

/-- Filesystem for the C4 witness: one user config with an endpoint
matching neither constant. -/
def fsC4 : String → Option (List String) :=
  fun p => if p = "/home/u/wg.conf" then some ["Endpoint = 1.2.3.4:51820"] else none

/-- A world with one connected managed interface and all control calls
succeeding. -/
def wConn : World :=
  { now := 0, showAllOut := some ["interface: julo-prod"],
    showIfaceOut := fun _ => some [], downOk := fun _ => true,
    downOut := fun _ => "", upOk := fun _ => true, upOut := fun _ => "" }

/-- C6 counterexample world: two managed interfaces are listed but the
detailed query fails, so the probe reports disconnected while its
self-healing has already issued a bring-down. -/
def wC6dup : World :=
  { now := 0, showAllOut := some ["interface: julo-a", "interface: julo-b"],
    showIfaceOut := fun _ => none, downOk := fun _ => true,
    downOut := fun _ => "", upOk := fun _ => true, upOut := fun _ => "" }

/-- C1 counterexample world: two managed interfaces listed, detailed
query failing. -/
def wC1dup : World :=
  { now := 0, showAllOut := some ["interface: julo-b", "interface: julo-c"],
    showIfaceOut := fun _ => none, downOk := fun _ => true,
    downOut := fun _ => "", upOk := fun _ => true, upOut := fun _ => "" }

/-- A world with two managed interfaces and successful detailed
queries, for the C1 witness. -/
def wC1w : World :=
  { now := 0, showAllOut := some ["interface: julo-a", "interface: julo-b"],
    showIfaceOut := fun _ => some [], downOk := fun _ => true,
    downOut := fun _ => "", upOk := fun _ => true, upOut := fun _ => "" }

/-! ## Helper lemmas -/

/-- The endpoint step never changes the identity fields. -/
theorem stepEndpoint_preserves (line : String) (st : ConnectionStatus) :
    (stepEndpoint line st).Connected = st.Connected ∧
    (stepEndpoint line st).Environment = st.Environment ∧
    (stepEndpoint line st).Interface = st.Interface := by
  unfold stepEndpoint
  split <;> exact ⟨rfl, rfl, rfl⟩

/-- The handshake step never changes the identity fields. -/
theorem stepHandshake_preserves (now : Int) (line : String) (st : ConnectionStatus) :
    (stepHandshake now line st).Connected = st.Connected ∧
    (stepHandshake now line st).Environment = st.Environment ∧
    (stepHandshake now line st).Interface = st.Interface := by
  unfold stepHandshake
  repeat' first | split | simp only []
  all_goals simp

/-- The transfer step never changes the identity fields. -/
theorem stepTransfer_preserves (line : String) (st : ConnectionStatus) :
    (stepTransfer line st).Connected = st.Connected ∧
    (stepTransfer line st).Environment = st.Environment ∧
    (stepTransfer line st).Interface = st.Interface := by
  unfold stepTransfer
  repeat' first | split | simp only []
  all_goals simp

/-- The line scanner never changes the `Connected`, `Environment` or
`Interface` fields. -/
theorem processLine_preserves (now : Int) (st : ConnectionStatus) (raw : String) :
    (processLine now st raw).Connected = st.Connected ∧
    (processLine now st raw).Environment = st.Environment ∧
    (processLine now st raw).Interface = st.Interface := by
  unfold processLine
  have h1 := stepEndpoint_preserves (strTrimSpace raw) st
  have h2 := stepHandshake_preserves now (strTrimSpace raw)
    (stepEndpoint (strTrimSpace raw) st)
  have h3 := stepTransfer_preserves (strTrimSpace raw)
    (stepHandshake now (strTrimSpace raw) (stepEndpoint (strTrimSpace raw) st))
  exact ⟨h3.1.trans (h2.1.trans h1.1), h3.2.1.trans (h2.2.1.trans h1.2.1),
    h3.2.2.trans (h2.2.2.trans h1.2.2)⟩

/-- Folding the line scanner preserves the three identity fields. -/
theorem foldl_processLine_preserves (now : Int) (lines : List String)
    (b : ConnectionStatus) :
    ((lines.foldl (processLine now) b)).Connected = b.Connected ∧
    ((lines.foldl (processLine now) b)).Environment = b.Environment ∧
    ((lines.foldl (processLine now) b)).Interface = b.Interface := by
  induction lines generalizing b with
  | nil => exact ⟨rfl, rfl, rfl⟩
  | cons x xs ih =>
    have h := processLine_preserves now b x
    have h2 := ih (processLine now b x)
    simp only [List.foldl_cons]
    exact ⟨h2.1.trans h.1, h2.2.1.trans h.2.1, h2.2.2.trans h.2.2⟩

/-- Every name collected by the interface scan carries the managed
prefix `julo-`. -/
theorem collectJulo_mem (lines : List String) (a : String)
    (h : a ∈ collectJulo lines) : strStartsWith a "julo-" = true := by
  unfold collectJulo at h
  rw [List.mem_filterMap] at h
  obtain ⟨x, _, hx⟩ := h
  dsimp only at hx
  split at hx
  · split at hx
    · exact Option.some.inj hx ▸ (by assumption)
    · exact absurd hx (by simp)
  · exact absurd hx (by simp)

/-- A string with the managed prefix is nonempty. -/
theorem julo_ne_empty (a : String) (h : strStartsWith a "julo-" = true) :
    a ≠ "" := by
  intro he
  rw [he] at h
  exact absurd h (by decide)

end TuiWg

namespace TuiWg

/-- `GetStatus` always returns a nil error (every `return` in the Go
function pairs the status with `nil`). -/
theorem getStatus_err_none (w : World) : (getStatus w).1.2 = none := by
  unfold getStatus getInterfaceStatus
  repeat' first | split | simp only []

/-- Characterization of a connected probe result: the all-interfaces
query succeeded, the scan found a first managed interface `a`, the
detailed query for `a` succeeded, and the status is the fold of the
scanner over its output. -/
theorem getStatus_connected (w : World)
    (h : (getStatus w).1.1.Connected = true) :
    ∃ lines a rest out,
      w.showAllOut = some lines ∧ collectJulo lines = a :: rest ∧
      w.showIfaceOut a = some out ∧
      (getStatus w).1.1 = out.foldl (processLine w.now)
        { Connected := true, Interface := a, Environment := envFromName a } ∧
      (getStatus w).2 = WgCmd.showAll :: (rest.map WgCmd.down ++ [WgCmd.showIface a]) := by
  rcases hA : w.showAllOut with _ | lines
  · unfold getStatus at h
    simp only [hA] at h
    simp at h
  · rcases hC : collectJulo lines with _ | ⟨a, rest⟩
    · unfold getStatus at h
      simp only [hA, hC] at h
      simp at h
    · rcases hI : w.showIfaceOut a with _ | out
      · unfold getStatus getInterfaceStatus at h
        simp only [hA, hC, hI] at h
        simp at h
      · refine ⟨lines, a, rest, out, rfl, hC, hI, ?_, ?_⟩
        · unfold getStatus getInterfaceStatus
          simp only [hA, hC, hI]
        · unfold getStatus getInterfaceStatus
          simp only [hA, hC, hI]

/-- When the probe reports connected, the reported interface is the
first collected managed name (hence carries the `julo-` prefix). -/
theorem getStatus_connected_iface (w : World)
    (h : (getStatus w).1.1.Connected = true) :
    strStartsWith (getStatus w).1.1.Interface "julo-" = true := by
  obtain ⟨lines, a, rest, out, _, hcol, _, hst, _⟩ := getStatus_connected w h
  have hpres := foldl_processLine_preserves w.now out
    { Connected := true, Interface := a, Environment := envFromName a }
  have hia : (getStatus w).1.1.Interface = a := by rw [hst]; exact hpres.2.2
  rw [hia]
  exact collectJulo_mem lines a (hcol ▸ List.mem_cons_self a rest)

/-- The probe's trace contains only status queries and bring-down
calls, never a bring-up. -/
theorem getStatus_no_up (w : World) (n : String) :
    WgCmd.up n ∉ (getStatus w).2 := by
  rcases hA : w.showAllOut with _ | lines
  · unfold getStatus
    simp only [hA]
    simp
  · rcases hC : collectJulo lines with _ | ⟨a, rest⟩
    · unfold getStatus
      simp only [hA, hC]
      simp
    · unfold getStatus getInterfaceStatus
      simp only [hA, hC]
      rcases hI : w.showIfaceOut a with _ | out <;> simp only [hI] <;> simp

end TuiWg

namespace TuiWg

/-- Shape of `stop` when the probe reports a connected session: the
probed interface is brought down after the probe's own commands, and the
call succeeds exactly when that bring-down does. -/
theorem stop_connected_shape (w : World)
    (h : (getStatus w).1.1.Connected = true) :
    stop w =
      (if w.downOk (getStatus w).1.1.Interface then none
       else some ("wg-quick down " ++ (getStatus w).1.1.Interface ++ " failed: " ++
         w.downOut (getStatus w).1.1.Interface),
       (getStatus w).2 ++ [WgCmd.down (getStatus w).1.1.Interface]) := by
  have hne : (getStatus w).1.1.Interface ≠ "" :=
    julo_ne_empty _ (getStatus_connected_iface w h)
  unfold stop
  simp only []
  rw [getStatus_err_none w]
  simp only [h, Bool.not_true, Bool.false_eq_true, if_false, if_neg hne]
  split <;> simp_all

/-- Shape of `stop` when the probe reports no connected session: it
succeeds immediately and issues exactly the probe's commands. -/
theorem stop_disconnected_shape (w : World)
    (h : (getStatus w).1.1.Connected = false) :
    stop w = (none, (getStatus w).2) := by
  unfold stop
  simp only []
  rw [getStatus_err_none w]
  simp [h]

end TuiWg

namespace TuiWg

/-- Shape of `start` when the probe reports connected and the stop
fails: the wrapped stop error is returned and no bring-up is issued. -/
theorem start_stopfail_shape (w : World) (env : String) (e : String)
    (hconn : (getStatus w).1.1.Connected = true)
    (hstop : (stop w).1 = some e) :
    start w env =
      (some ("failed to stop current VPN (" ++ (getStatus w).1.1.Interface ++
        "): " ++ e), (getStatus w).2 ++ (stop w).2) := by
  unfold start
  simp only []
  rw [getStatus_err_none w]
  simp only [hconn, if_true]
  have hs : stop w = (some e, (stop w).2) := by
    rcases hq : stop w with ⟨e2, tr⟩
    rw [hq] at hstop
    simp at hstop
    rw [hstop]
  rw [hs]

/-- Shape of `start` when the probe reports connected and the stop
succeeds: the trace is probe, then the stop's commands, then the
bring-up of the requested interface. -/
theorem start_stopok_shape (w : World) (env : String)
    (hconn : (getStatus w).1.1.Connected = true)
    (hstop : (stop w).1 = none) :
    (start w env).2 = (getStatus w).2 ++ (stop w).2 ++ [WgCmd.up ("julo-" ++ env)] := by
  unfold start
  simp only []
  rw [getStatus_err_none w]
  simp only [hconn, if_true]
  have hs : stop w = (none, (stop w).2) := by
    rcases hq : stop w with ⟨e2, tr⟩
    rw [hq] at hstop
    simp at hstop
    rw [hstop]
  rw [hs]
  dsimp only
  split <;> simp [List.append_assoc]

/-- Any list followed by a two-element suffix holds those elements at
the positions just past the list, in order. -/
theorem append_pair_getElem (A : List WgCmd) (x y : WgCmd) :
    ∃ i j : Nat, i < j ∧ (A ++ [x, y])[i]? = some x ∧ (A ++ [x, y])[j]? = some y := by
  refine ⟨A.length, A.length + 1, by omega, ?_, ?_⟩
  · rw [List.getElem?_append_right (Nat.le_refl A.length)]
    simp
  · rw [List.getElem?_append_right (Nat.le_succ_of_le (Nat.le_refl A.length))]
    simp

/-- If `pre ++ suf` is a prefix of `m` then `suf` occurs inside `m`. -/
theorem infixAux_of_isPrefixList (pre suf m : List Char)
    (h : isPrefixList (pre ++ suf) m = true) : infixAux suf m = true := by
  induction pre generalizing m with
  | nil =>
    rw [List.nil_append] at h
    cases m with
    | nil =>
      cases suf with
      | nil => rfl
      | cons c cs => exact absurd h (by simp [isPrefixList])
    | cons b bs =>
      unfold infixAux
      simp [h]
  | cons a as ih =>
    cases m with
    | nil =>
      rw [List.cons_append] at h
      exact absurd h (by simp [isPrefixList])
    | cons b bs =>
      rw [List.cons_append] at h
      unfold isPrefixList at h
      rw [Bool.and_eq_true] at h
      have h2 := ih bs h.2
      unfold infixAux
      rw [h2]
      simp

/-- If `pre ++ suf` occurs inside `m` then so does `suf`. -/
theorem infixAux_drop_front (pre suf m : List Char)
    (h : infixAux (pre ++ suf) m = true) : infixAux suf m = true := by
  induction m with
  | nil =>
    unfold infixAux at h ⊢
    rcases pre with _ | ⟨a, as⟩
    · exact h
    · exact absurd h (by simp)
  | cons c cs ih =>
    unfold infixAux at h
    rw [Bool.or_eq_true] at h
    rcases h with h | h
    · exact infixAux_of_isPrefixList pre suf (c :: cs) h
    · have h2 := ih h
      unfold infixAux
      rw [h2]
      simp

/-- A string containing `"nonprod"` also contains `"prod"`. -/
theorem contains_prod_of_nonprod (name : String)
    (h : strContainsSub name "nonprod" = true) :
    strContainsSub name "prod" = true := by
  unfold strContainsSub at h ⊢
  have he : ("nonprod".toList) = "non".toList ++ "prod".toList := by decide
  rw [he] at h
  exact infixAux_drop_front "non".toList "prod".toList name.toList h

/-- Partition of a line list into three disjoint classes: lines matched
by `pD`, lines matched by `pA`, and the rest. -/
theorem length_eq_three_counts (pD pA : String → Bool)
    (hdisj : ∀ l, pD l = true → pA l = false) (xs : List String) :
    xs.length = xs.countP pD + xs.countP pA +
      (xs.filter (fun l => !pD l && !pA l)).length := by
  induction xs with
  | nil => rfl
  | cons x xs ih =>
    by_cases hD : pD x = true
    · have hA : pA x = false := hdisj x hD
      simp [List.countP_cons, List.filter_cons, hD, hA]
      omega
    · have hD2 : pD x = false := by revert hD; cases pD x <;> simp
      by_cases hA : pA x = true
      · simp [List.countP_cons, List.filter_cons, hD2, hA]
        omega
      · have hA2 : pA x = false := by revert hA; cases pA x <;> simp
        simp [List.countP_cons, List.filter_cons, hD2, hA2]
        omega

/-- Two candidate prefixes whose heads differ cannot both hold. -/
theorem isPrefixList_head_clash (a b : Char) (as bs l : List Char)
    (hab : a ≠ b) (h : isPrefixList (a :: as) l = true) :
    isPrefixList (b :: bs) l = false := by
  cases l with
  | nil => exact absurd h (by simp [isPrefixList])
  | cons c cs =>
    unfold isPrefixList at h ⊢
    rw [Bool.and_eq_true] at h
    have hc : a = c := by
      have h1 := h.1
      rwa [beq_iff_eq] at h1
    have hbc : (b == c) = false := by
      rw [beq_eq_false_iff_ne]
      intro hbc
      exact hab (hc ▸ hbc.symm)
    rw [hbc]
    rfl

/-- A line starting with `"AllowedIPs"` does not start with `"DNS"`. -/
theorem allowed_not_dns (l : String)
    (h : strStartsWith l "AllowedIPs" = true) :
    strStartsWith l "DNS" = false := by
  unfold strStartsWith at h ⊢
  have hA : "AllowedIPs".toList = 'A' :: "llowedIPs".toList := by decide
  have hD : "DNS".toList = 'D' :: "NS".toList := by decide
  rw [hA] at h
  rw [hD]
  exact isPrefixList_head_clash 'A' 'D' "llowedIPs".toList "NS".toList l.toList
    (by decide) h

end TuiWg

namespace TuiWg

/-! ## Concrete worlds used by witnesses and counterexamples -/

end TuiWg

namespace TuiWg

/-- C2: `GetStatus` never returns an error: for every outcome of the
status-query subprocess its error component is `nil`, and on invocation
failure of either query, or when no managed interface is listed, the
result degrades to the disconnected zero status. -/
theorem claim_C2_getStatus_never_errors (w : World) :
    (getStatus w).1.2 = none ∧
    (w.showAllOut = none → (getStatus w).1.1 = { Connected := false }) ∧
    (∀ lines, w.showAllOut = some lines → collectJulo lines = [] →
      (getStatus w).1.1 = { Connected := false }) ∧
    (∀ name, (getInterfaceStatus w name).1.2 = none ∧
      (w.showIfaceOut name = none →
        (getInterfaceStatus w name).1.1 = { Connected := false })) := by
  refine ⟨getStatus_err_none w, ?_, ?_, ?_⟩
  · intro h
    unfold getStatus
    simp [h]
  · intro lines h1 h2
    unfold getStatus
    simp [h1, h2]
  · intro name
    constructor
    · unfold getInterfaceStatus
      repeat' first | split | simp only []
    · intro h
      unfold getInterfaceStatus
      simp [h]

/-- Witness for C2 at a world whose status query fails. -/
theorem claim_C2_witness :
    (getStatus wNoShow).1.2 = none ∧
    (getStatus wNoShow).1.1 = { Connected := false } := by
  have h := claim_C2_getStatus_never_errors wNoShow
  exact ⟨h.1, h.2.1 rfl⟩

/-- C9: every status returned by `GetStatus` with `Connected = false`
is the zero status: environment, interface, endpoint, handshake and
byte counters all at their empty defaults. -/
theorem claim_C9_disconnected_fields_zero (w : World)
    (h : (getStatus w).1.1.Connected = false) :
    (getStatus w).1.1 = { Connected := false } := by
  rcases hA : w.showAllOut with _ | lines
  · unfold getStatus
    simp [hA]
  · rcases hC : collectJulo lines with _ | ⟨a, rest⟩
    · unfold getStatus
      simp [hA, hC]
    · rcases hI : w.showIfaceOut a with _ | out
      · unfold getStatus getInterfaceStatus
        simp [hA, hC, hI]
      · exfalso
        unfold getStatus getInterfaceStatus at h
        simp only [hA, hC, hI] at h
        have hp := (foldl_processLine_preserves w.now out
          { Connected := true, Interface := a, Environment := envFromName a }).1
        rw [hp] at h
        exact absurd h (by simp)

/-- Witness for C9 at a world whose status query fails. -/
theorem claim_C9_witness : (getStatus wNoShow).1.1 = { Connected := false } :=
  claim_C9_disconnected_fields_zero wNoShow (by decide)

/-- C10: environment inference tests `nonprod` before `prod`: a name
containing `"nonprod"` (which necessarily also contains `"prod"`) is
NonProduction, a name containing `"prod"` but not `"nonprod"` is
Production, and a name containing neither yields a connected session
with the environment left at its empty default. -/
theorem claim_C10_environment_inference (w : World) (name : String)
    (out : List String) (hq : w.showIfaceOut name = some out) :
    (strContainsSub name "nonprod" = true →
      (getInterfaceStatus w name).1.1.Environment = NonProduction ∧
      strContainsSub name "prod" = true) ∧
    (strContainsSub name "nonprod" = false → strContainsSub name "prod" = true →
      (getInterfaceStatus w name).1.1.Environment = Production) ∧
    (strContainsSub name "nonprod" = false → strContainsSub name "prod" = false →
      (getInterfaceStatus w name).1.1.Connected = true ∧
      (getInterfaceStatus w name).1.1.Environment = "") := by
  have hshape : (getInterfaceStatus w name).1.1 = out.foldl (processLine w.now)
      { Connected := true, Interface := name, Environment := envFromName name } := by
    unfold getInterfaceStatus
    simp [hq]
  have hpres := foldl_processLine_preserves w.now out
    { Connected := true, Interface := name, Environment := envFromName name }
  have hConn : (getInterfaceStatus w name).1.1.Connected = true := by
    rw [hshape]; exact hpres.1
  have hEnv : (getInterfaceStatus w name).1.1.Environment = envFromName name := by
    rw [hshape]; exact hpres.2.1
  refine ⟨?_, ?_, ?_⟩
  · intro h1
    refine ⟨?_, contains_prod_of_nonprod name h1⟩
    rw [hEnv]
    simp [envFromName, h1]
  · intro h1 h2
    rw [hEnv]
    simp [envFromName, h1, h2]
  · intro h1 h2
    refine ⟨hConn, ?_⟩
    rw [hEnv]
    simp [envFromName, h1, h2]

/-- Witness for C10 on the three kinds of names. -/
theorem claim_C10_witness :
    (getInterfaceStatus wIfaceOnly "julo-x").1.1.Connected = true ∧
    (getInterfaceStatus wIfaceOnly "julo-x").1.1.Environment = "" ∧
    (getInterfaceStatus wIfaceOnly "julo-nonprod").1.1.Environment = NonProduction ∧
    (getInterfaceStatus wIfaceOnly "julo-prod").1.1.Environment = Production := by
  have h1 := claim_C10_environment_inference wIfaceOnly "julo-x" [] rfl
  have h2 := claim_C10_environment_inference wIfaceOnly "julo-nonprod" [] rfl
  have h3 := claim_C10_environment_inference wIfaceOnly "julo-prod" [] rfl
  exact ⟨(h1.2.2 (by decide) (by decide)).1, (h1.2.2 (by decide) (by decide)).2,
    (h2.1 (by decide)).1, h3.2.1 (by decide) (by decide)⟩

end TuiWg

namespace TuiWg

/-- C7 counterexample: `"7 secondss"` is not of the spec's phrase form,
yet the parser accepts it (it only checks that the string contains
`"second"` and that the first field is an integer), so the handshake
field is set rather than left absent. -/
theorem claim_C7_counterexample :
    specRelativePhrase "7 secondss" = false ∧
    parseHandshakeTime 1000 "7 secondss" = .ok 993 ∧
    (processLine 1000 { Connected := true }
      "latest handshake: 7 secondss").LastSeen = some 993 := by
  refine ⟨by decide, by decide, by decide⟩

/-- C7 (amended): `"45 seconds"` parses to `now - 45` and
`"3 minutes"` to `now - 180` (exactly, hence within one second); a
phrasing containing neither `"second"` nor `"minute"` always yields the
parse error that the scanner swallows, and the scanner guard leaves the
field untouched for the values `"0"` and empty.  (Phrasings beyond the
exact `"<N> second(s)"`/`"<N> minute(s)"` forms can still be accepted
whenever they contain the unit substring and start with an integer
field, as the counterexample shows.) -/
theorem claim_C7_handshake_parsing (now : Int) :
    parseHandshakeTime now "45 seconds" = .ok (now - 45) ∧
    parseHandshakeTime now "3 minutes" = .ok (now - 3 * 60) ∧
    (∀ s, strContainsSub s "second" = false → strContainsSub s "minute" = false →
      parseHandshakeTime now s = .error ("unable to parse handshake time: " ++ s)) ∧
    (∀ st : ConnectionStatus,
      (processLine now st "latest handshake: 0").LastSeen = st.LastSeen) ∧
    (∀ st : ConnectionStatus,
      (processLine now st "latest handshake:").LastSeen = st.LastSeen) := by
  refine ⟨rfl, rfl, ?_, fun st => rfl, fun st => rfl⟩
  intro s h1 h2
  unfold parseHandshakeTime
  simp [h1, h2]

/-- Witness for C7 at concrete inputs. -/
theorem claim_C7_witness :
    parseHandshakeTime 1000 "45 seconds" = .ok 955 ∧
    parseHandshakeTime 1000 "hello" =
      .error "unable to parse handshake time: hello" := by
  have h := claim_C7_handshake_parsing 1000
  refine ⟨h.1.trans (by decide), ?_⟩
  exact (h.2.2.1 "hello" (by decide) (by decide)).trans (by decide)

/-- C8: the transfer pair `"1.50 MiB, 200 KiB"` does **not** parse to
`1572864`/`204800`: trimming only the unit suffix leaves a trailing
space (`"1.50 "`), which `strconv.ParseFloat` rejects, so both counters
stay 0.  Without the space the intended binary multiples are applied,
showing the conversion itself matches the claimed units. -/
theorem claim_C8_transfer_bug :
    parseBytes "1.50 MiB" = .error "invalid syntax: 1.50 " ∧
    parseBytes "200 KiB" = .error "invalid syntax: 200 " ∧
    (processLine 0 { Connected := true }
      "transfer: 1.50 MiB, 200 KiB").BytesRx = 0 ∧
    (processLine 0 { Connected := true }
      "transfer: 1.50 MiB, 200 KiB").BytesTx = 0 ∧
    parseBytes "1.50MiB" = .ok 1572864 ∧
    parseBytes "200KiB" = .ok 204800 ∧
    parseBytes "3GiB" = .ok 3221225472 ∧
    parseBytes "17B" = .ok 17 := by
  refine ⟨by decide, by decide, by decide, by decide, by decide, by decide,
    by decide, by decide⟩

end TuiWg

namespace TuiWg

/-- A line starting with `"DNS"` does not start with `"AllowedIPs"`. -/
theorem dns_not_allowed (l : String)
    (h : strStartsWith l "DNS" = true) :
    strStartsWith l "AllowedIPs" = false := by
  unfold strStartsWith at h ⊢
  have hA : "AllowedIPs".toList = 'A' :: "llowedIPs".toList := by decide
  have hD : "DNS".toList = 'D' :: "NS".toList := by decide
  rw [hD] at h
  rw [hA]
  exact isPrefixList_head_clash 'D' 'A' "NS".toList "llowedIPs".toList l.toList
    (by decide) h

/-- C3: the merge is the order-preserving map substituting the
template's `AllowedIPs` and `DNS` lines and passing every other line
through byte-identically, so it preserves the line count; for one `DNS`
line, one `AllowedIPs` line and `N` other lines the output has exactly
`N + 2` lines. -/
theorem claim_C3_merge_transform (tmpl user out : List String)
    (h : updateConfig tmpl user = .ok out) :
    (∃ dnsL ipsL, extractConfigLine tmpl "DNS" = .ok dnsL ∧
      extractConfigLine tmpl "AllowedIPs" = .ok ipsL ∧
      out = user.map (mergeLine dnsL ipsL)) ∧
    out.length = user.length ∧
    (∀ dnsL ipsL, extractConfigLine tmpl "DNS" = .ok dnsL →
      extractConfigLine tmpl "AllowedIPs" = .ok ipsL →
      ∀ (i : Nat) (l : String), user[i]? = some l →
        out[i]? = some (if strStartsWith l "AllowedIPs" then ipsL
          else if strStartsWith l "DNS" then dnsL else l)) ∧
    (∀ N, user.countP (fun l => strStartsWith l "DNS") = 1 →
      user.countP (fun l => strStartsWith l "AllowedIPs") = 1 →
      (user.filter (fun l => !(strStartsWith l "DNS") &&
        !(strStartsWith l "AllowedIPs"))).length = N →
      out.length = N + 2) := by
  unfold updateConfig at h
  rcases hD : extractConfigLine tmpl "DNS" with m | dns
  · rw [hD] at h
    exact absurd h (by simp)
  rcases hA : extractConfigLine tmpl "AllowedIPs" with m | ips
  · rw [hD, hA] at h
    exact absurd h (by simp)
  rw [hD, hA] at h
  simp only [Except.ok.injEq] at h
  have hout : out = user.map (mergeLine dns ips) := h.symm
  have hlen : out.length = user.length := by rw [hout, List.length_map]
  refine ⟨⟨dns, ips, rfl, rfl, hout⟩, hlen, ?_, ?_⟩
  · intro dnsL ipsL hD2 hA2 i l hl
    have e1 : dnsL = dns := (Except.ok.inj hD2).symm
    have e2 : ipsL = ips := (Except.ok.inj hA2).symm
    subst e1 e2
    rw [hout, List.getElem?_map, hl]
    rfl
  · intro N h1 h2 h3
    have hpart := length_eq_three_counts (fun l => strStartsWith l "DNS")
      (fun l => strStartsWith l "AllowedIPs") (fun l => dns_not_allowed l) user
    rw [h1, h2, h3] at hpart
    omega

/-- Witness for C3 at a concrete merge. -/
theorem claim_C3_witness :
    mergedEx.length = userEx.length ∧
    mergedEx[1]? = some "DNS = 1.1.1.1" ∧
    mergedEx.length = 1 + 2 := by
  have h := claim_C3_merge_transform tmplEx userEx mergedEx (by decide)
  refine ⟨h.2.1, ?_, ?_⟩
  · have h2 := h.2.2.1 "DNS = 1.1.1.1" "AllowedIPs = 10.0.0.0/8"
      (by decide) (by decide) 1 "DNS = 8.8.8.8" (by decide)
    exact h2.trans (by decide)
  · exact h.2.2.2 1 (by decide) (by decide) (by decide)

/-- C4: classification of the extracted endpoint is total and exact:
anything differing from both fixed endpoint constants makes
`ProcessUserConfig` fail with the unrecognized-config error, and an
exact match resolves to the corresponding environment's template and
output paths, unambiguously since the two constants differ. -/
theorem claim_C4_endpoint_classification (fs : String → Option (List String))
    (path : String) (userLines : List String) (e : String)
    (hfs : fs path = some userLines)
    (he : extractEndpoint userLines = .ok e) :
    (e ≠ ProdEndpoint → e ≠ NonProdEndpoint →
      processUserConfig fs path = .error ("the config you specify (" ++ path ++
        ") is not a JULO VPN config. Please check with Infra Team")) ∧
    (e = ProdEndpoint →
      processUserConfig fs path = resolveEnv fs userLines
        (joinPath ConfigDir ProdTemplate) (joinPath ConfigDir ProdConfig)) ∧
    (e = NonProdEndpoint →
      processUserConfig fs path = resolveEnv fs userLines
        (joinPath ConfigDir NonProdTemplate) (joinPath ConfigDir NonProdConfig)) ∧
    ProdEndpoint ≠ NonProdEndpoint := by
  have hu : processUserConfig fs path =
      (if e = ProdEndpoint then
        resolveEnv fs userLines (joinPath ConfigDir ProdTemplate)
          (joinPath ConfigDir ProdConfig)
      else if e = NonProdEndpoint then
        resolveEnv fs userLines (joinPath ConfigDir NonProdTemplate)
          (joinPath ConfigDir NonProdConfig)
      else
        .error ("the config you specify (" ++ path ++
          ") is not a JULO VPN config. Please check with Infra Team")) := by
    unfold processUserConfig
    simp only [hfs, he]
  refine ⟨?_, ?_, ?_, by decide⟩
  · intro h1 h2
    rw [hu, if_neg h1, if_neg h2]
  · intro h1
    rw [hu, if_pos h1]
  · intro h1
    have hne : e ≠ ProdEndpoint := by
      rw [h1]
      decide
    rw [hu, if_neg hne, if_pos h1]

/-- Witness for C4: the unrecognized endpoint is rejected. -/
theorem claim_C4_witness :
    processUserConfig fsC4 "/home/u/wg.conf" = .error
      ("the config you specify (/home/u/wg.conf) is not a JULO VPN config. " ++
        "Please check with Infra Team") := by
  have h := claim_C4_endpoint_classification fsC4 "/home/u/wg.conf"
    ["Endpoint = 1.2.3.4:51820"] "1.2.3.4:51820" (by decide) (by decide)
  exact (h.1 (by decide) (by decide)).trans (by decide)

end TuiWg

namespace TuiWg

/-- `stop` never issues a bring-up call. -/
theorem stop_no_up (w : World) (n : String) : WgCmd.up n ∉ (stop w).2 := by
  unfold stop
  simp only []
  have h0 := getStatus_no_up w n
  repeat' split
  all_goals simp_all

/-- C5: starting environment `env` while a session is connected brings
the current interface down strictly before bringing `julo-<env>` up; if
the stop fails, `Start` returns the error wrapping the stop failure and
no bring-up call appears in its trace. -/
theorem claim_C5_start_ordering (w : World) (env : String)
    (hconn : (getStatus w).1.1.Connected = true) :
    (∀ e, (stop w).1 = some e →
      start w env = (some ("failed to stop current VPN (" ++
          (getStatus w).1.1.Interface ++ "): " ++ e),
        (getStatus w).2 ++ (stop w).2) ∧
      ∀ n, WgCmd.up n ∉ (start w env).2) ∧
    ((stop w).1 = none →
      (start w env).2 = (getStatus w).2 ++ ((getStatus w).2 ++
        [WgCmd.down (getStatus w).1.1.Interface, WgCmd.up ("julo-" ++ env)]) ∧
      ∃ i j : Nat, i < j ∧
        ((start w env).2)[i]? = some (WgCmd.down (getStatus w).1.1.Interface) ∧
        ((start w env).2)[j]? = some (WgCmd.up ("julo-" ++ env))) := by
  constructor
  · intro e hstop
    have hsh := start_stopfail_shape w env e hconn hstop
    refine ⟨hsh, ?_⟩
    intro n hmem
    have h2 : (start w env).2 = (getStatus w).2 ++ (stop w).2 := by rw [hsh]
    rw [h2, List.mem_append] at hmem
    rcases hmem with hmem | hmem
    · exact getStatus_no_up w n hmem
    · exact stop_no_up w n hmem
  · intro hstop
    have hshape := stop_connected_shape w hconn
    have hstr : (stop w).2 =
        (getStatus w).2 ++ [WgCmd.down (getStatus w).1.1.Interface] := by
      rw [hshape]
    have htr := start_stopok_shape w env hconn hstop
    constructor
    · rw [htr, hstr]
      simp [List.append_assoc]
    · have heq : (start w env).2 = ((getStatus w).2 ++ (getStatus w).2) ++
          [WgCmd.down (getStatus w).1.1.Interface, WgCmd.up ("julo-" ++ env)] := by
        rw [htr, hstr]
        simp [List.append_assoc]
      rw [heq]
      exact append_pair_getElem _ _ _

/-- Witness for C5: switching from the connected production session to
non-production issues the down strictly before the up. -/
theorem claim_C5_witness :
    (start wConn "nonprod").2 = (getStatus wConn).2 ++ ((getStatus wConn).2 ++
      [WgCmd.down (getStatus wConn).1.1.Interface,
        WgCmd.up ("julo-" ++ "nonprod")]) ∧
    ∃ i j : Nat, i < j ∧
      ((start wConn "nonprod").2)[i]? =
        some (WgCmd.down (getStatus wConn).1.1.Interface) ∧
      ((start wConn "nonprod").2)[j]? = some (WgCmd.up ("julo-" ++ "nonprod")) :=
  (claim_C5_start_ordering wConn "nonprod" (by decide)).2 (by decide)

/-- C6 counterexample: the probe reports no connected session, `Stop`
succeeds, and yet a bring-down call was issued during `Stop` (inside
the probe's duplicate-interface cleanup), refuting "without issuing any
bring-down call" as stated. -/
theorem claim_C6_counterexample :
    (getStatus wC6dup).1.1.Connected = false ∧
    (stop wC6dup).1 = none ∧
    WgCmd.down "julo-b" ∈ (stop wC6dup).2 := by
  refine ⟨by decide, by decide, by decide⟩

/-- C6 (amended): whenever the probe reports no connected session,
`Stop` succeeds and issues exactly the probe's commands — no bring-down
of its own beyond any the probe's self-healing already issued; since the
operation is a pure function of the world, a second `Stop` from the same
disconnected external state succeeds identically. -/
theorem claim_C6_stop_idempotent (w : World)
    (h : (getStatus w).1.1.Connected = false) :
    (stop w).1 = none ∧ (stop w).2 = (getStatus w).2 := by
  have hs := stop_disconnected_shape w h
  rw [hs]
  exact ⟨rfl, rfl⟩

/-- Witness for C6 at a world whose status query fails. -/
theorem claim_C6_witness :
    (stop wNoShow).1 = none ∧ (stop wNoShow).2 = (getStatus wNoShow).2 :=
  claim_C6_stop_idempotent wNoShow (by decide)

/-- C1 counterexample: with two managed interfaces listed, `GetStatus`
does issue the bring-down for the second, but the session it returns is
*not* connected, because the follow-up detailed query for the first
interface fails — refuting "returns exactly one connected session" as a
universal statement over status-query outputs. -/
theorem claim_C1_counterexample :
    (collectJulo ["interface: julo-b", "interface: julo-c"]).length = 2 ∧
    (getStatus wC1dup).1.1.Connected = false ∧
    (getStatus wC1dup).2 =
      [WgCmd.showAll, WgCmd.down "julo-c", WgCmd.showIface "julo-b"] := by
  refine ⟨by decide, by decide, by decide⟩

/-- C1 (amended): for every status-query output whose scan finds the
managed interfaces `a :: rest`, `GetStatus` returns a single session
with a nil error, issues exactly one bring-down per interface in `rest`
(in order, between the status query and the detailed query), is
connected with interface `a` whenever the detailed query for `a`
succeeds, and its result ignores the bring-down outcomes entirely: any
world differing only in the bring-down/bring-up behaviour yields the
identical result. -/
theorem claim_C1_reconciliation (w : World) (lines : List String)
    (a : String) (rest : List String)
    (hshow : w.showAllOut = some lines)
    (hcol : collectJulo lines = a :: rest) :
    (getStatus w).2 = WgCmd.showAll ::
      (rest.map WgCmd.down ++ [WgCmd.showIface a]) ∧
    (getStatus w).1.2 = none ∧
    (∀ out, w.showIfaceOut a = some out →
      (getStatus w).1.1.Connected = true ∧ (getStatus w).1.1.Interface = a) ∧
    (∀ w2 : World, w2.now = w.now → w2.showAllOut = w.showAllOut →
      w2.showIfaceOut = w.showIfaceOut → getStatus w2 = getStatus w) := by
  refine ⟨?_, getStatus_err_none w, ?_, ?_⟩
  · unfold getStatus getInterfaceStatus
    simp only [hshow, hcol]
    rcases hI : w.showIfaceOut a with _ | out <;> simp [hI]
  · intro out hout
    have hsh : (getStatus w).1.1 = out.foldl (processLine w.now)
        { Connected := true, Interface := a, Environment := envFromName a } := by
      unfold getStatus getInterfaceStatus
      simp [hshow, hcol, hout]
    have hp := foldl_processLine_preserves w.now out
      { Connected := true, Interface := a, Environment := envFromName a }
    rw [hsh]
    exact ⟨hp.1, hp.2.2⟩
  · intro w2 hnow hall hif
    unfold getStatus getInterfaceStatus
    rw [hnow, hall, hif, hshow]

/-- Witness for C1: with two managed interfaces listed and the detailed
query succeeding, the session is connected on the first interface and
exactly the second is brought down. -/
theorem claim_C1_witness :
    (getStatus wC1w).2 = WgCmd.showAll ::
      (List.map WgCmd.down ["julo-b"] ++ [WgCmd.showIface "julo-a"]) ∧
    (getStatus wC1w).1.1.Connected = true ∧
    (getStatus wC1w).1.1.Interface = "julo-a" := by
  have h := claim_C1_reconciliation wC1w ["interface: julo-a", "interface: julo-b"]
    "julo-a" ["julo-b"] rfl (by decide)
  exact ⟨h.1, (h.2.2.1 [] rfl).1, (h.2.2.1 [] rfl).2⟩

end TuiWg
